import Mathlib

/-!
Shallow embedding of the authentication core of the Car-Website repository
(`src/server/auth.ts`, `src/server/storage.ts`, and the shared zod schemas).

Conventions of the embedding:
- Node `Buffer`s are `List Nat` with each byte below 256.
- The scrypt key-derivation function is an abstract parameter
  `kdf : String → String → List Nat` (password, salt-hex → digest bytes);
  the source calls `scryptAsync(password, salt, 64)`, so theorems that need
  the output size carry the hypothesis that `kdf` returns 64 bytes.
- `randomBytes(16).toString("hex")` is modelled by an explicit salt
  argument: randomness becomes universal quantification over salts.
- A JavaScript function that can reject/throw is modelled with `Option`
  (`none` = thrown exception) or a dedicated response constructor.
-/

/-- The sixteen lowercase hex digits used by Node's `buf.toString("hex")`:
codepoints 48–57 then 97–102. -/
def hexDigits : List Char :=
  (List.range 16).map (fun n => if n < 10 then Char.ofNat (48 + n) else Char.ofNat (87 + n))

/-- One hex digit of a nibble, as Node renders it (lowercase). -/
def hexChar (n : Nat) : Char := hexDigits.getD n '0'

/-- Decode one hex character, as Node's `Buffer.from(s, "hex")` accepts it
(both letter cases); `none` for a non-hex character. -/
def hexDigit? (c : Char) : Option Nat :=
  if '0' ≤ c ∧ c ≤ '9' then some (c.toNat - 48)
  else if 'a' ≤ c ∧ c ≤ 'f' then some (c.toNat - 87)
  else if 'A' ≤ c ∧ c ≤ 'F' then some (c.toNat - 55)
  else none

/-- `buf.toString("hex")` on a byte list: two lowercase digits per byte. -/
def bytesToHexChars : List Nat → List Char
  | [] => []
  | b :: r => hexChar (b / 16) :: hexChar (b % 16) :: bytesToHexChars r

/-- `Buffer.from(s, "hex")`: decode pairs of hex characters, stopping at the
first invalid pair or at an odd trailing character, as Node does. -/
def hexToBytes : List Char → List Nat
  | c1 :: c2 :: rest =>
    match hexDigit? c1, hexDigit? c2 with
    | some h, some l => (16 * h + l) :: hexToBytes rest
    | _, _ => []
  | _ => []

/-- JavaScript `s.split(".")` on the character list of `s`. -/
def splitOnDot : List Char → List (List Char)
  | [] => [[]]
  | c :: rest =>
    let ps := splitOnDot rest
    if c = '.' then [] :: ps
    else (c :: ps.headD []) :: ps.tail

/-- The destructuring `const [hashed, salt] = stored.split(".")` of
`comparePasswords`; a missing component becomes `""`, which is falsy in the
guard exactly as JavaScript `undefined` is. -/
def splitParts (stored : String) : String × String :=
  let ps := splitOnDot stored.data
  (String.mk (ps.headD []), String.mk ((ps.drop 1).headD []))

/-- Node `crypto.timingSafeEqual`: throws (here `none`) when the two buffers
have different lengths, otherwise reports byte equality. -/
def timingSafeEqual (a b : List Nat) : Option Bool :=
  if a.length = b.length then some (decide (a = b)) else none

/-- `hashPassword` of `src/server/auth.ts`:
`` `${buf.toString("hex")}.${salt}` `` where `buf = scrypt(password, salt, 64)`
and `salt` is 16 fresh random bytes rendered as hex (here an explicit
argument). -/
def hashPassword (kdf : String → String → List Nat) (password salt : String) : String :=
  String.mk (bytesToHexChars (kdf password salt)) ++ "." ++ salt

/-- `comparePasswords` of `src/server/auth.ts`: split the stored encoding on
`"."`; if the hash or the salt part is missing, log and return `false`;
otherwise hex-decode the stored digest, re-derive the digest of the supplied
password with the recovered salt, and compare with `timingSafeEqual`
(`none` = the comparison threw on a length mismatch). -/
def comparePasswords (kdf : String → String → List Nat) (supplied stored : String) :
    Option Bool :=
  let hashed := (splitParts stored).1
  let salt := (splitParts stored).2
  if hashed = "" ∨ salt = "" then some false
  else timingSafeEqual (hexToBytes hashed.data) (kdf supplied salt)

/-- A row of the `users` table as the auth layer sees it (the `AuthUser`
shape of `src/server/storage.ts`, restricted to the fields declared in the
`Express.User` interface of `src/server/auth.ts` plus the password hash).
The stored role is a string column (`text("role")`). Timestamps are `Nat`. -/
structure AuthUser where
  id : Nat
  username : String
  email : String
  password : String
  role : String
  createdAt : Nat
  updatedAt : Nat
deriving DecidableEq, Repr

/-- The hash-free user shape (`selectUserSchema` omits `password`; the routes
destructure `{password, ...userWithoutPassword}`). -/
structure PublicUser where
  id : Nat
  username : String
  email : String
  role : String
  createdAt : Nat
  updatedAt : Nat
deriving DecidableEq, Repr

/-- The `const { password: _, ...userWithoutPassword } = user` destructuring. -/
def stripPassword (u : AuthUser) : PublicUser :=
  ⟨u.id, u.username, u.email, u.role, u.createdAt, u.updatedAt⟩

/-- Serialisation of a hash-free user as the JSON key/value pairs produced by
`res.json(userWithoutPassword)`. -/
def fieldsOfPublic (u : PublicUser) : List (String × String) :=
  [("id", toString u.id), ("username", u.username), ("email", u.email),
   ("role", u.role), ("createdAt", toString u.createdAt),
   ("updatedAt", toString u.updatedAt)]

/-- The closed role set of `z.enum([UserRole.ADMIN, UserRole.DEALER,
UserRole.SALES])` in the shared schema. -/
def roleStrings : List String := ["admin", "dealer", "sales"]

/-- `DatabaseStorage.getUserByEmail`: select (with the password column) the
row whose email matches. -/
def getUserByEmail (store : List AuthUser) (email : String) : Option AuthUser :=
  store.find? (fun u => u.email = email)

/-- `DatabaseStorage.getUserByUsername`: select (with the password column)
the row whose username matches. -/
def getUserByUsername (store : List AuthUser) (username : String) : Option AuthUser :=
  store.find? (fun u => u.username = username)

/-- `DatabaseStorage.getUser`: id lookup whose column list omits `password`,
so the result is the hash-free shape. -/
def getUser (store : List AuthUser) (id : Nat) : Option PublicUser :=
  (store.find? (fun u => u.id = id)).map stripPassword

/-- An HTTP response as the auth routes produce them. `serverErr` stands for
`next(error)` — an exception escaping to the framework's error handler. -/
inductive Resp where
  | json (status : Nat) (fields : List (String × String))
  | jsonMsg (status : Nat) (message : String)
  | validationErr (status : Nat) (message : String) (errors : List String)
  | statusOnly (status : Nat)
  | serverErr
deriving DecidableEq, Repr

/-- The JSON keys of a response body, where the body is a user object. -/
def respKeys : Resp → List String
  | .json _ fields => fields.map Prod.fst
  | _ => []

/-- An `/api/register` request body. -/
structure RegisterRequest where
  username : String
  email : String
  password : String
  role : String
deriving DecidableEq, Repr

/-- An `/api/login` request body. -/
structure LoginRequest where
  email : String
  password : String
  role : String
deriving DecidableEq, Repr

/-- The zod issues of `insertUserSchema.parse` on a register body: zod
collects one issue per violated field, over all fields. The email-syntax
check `z.string().email()` is the abstract parameter `emailValid`. -/
def registerIssues (emailValid : String → Bool) (r : RegisterRequest) : List String :=
  (if r.username.length < 3 then ["Username must be at least 3 characters"] else []) ++
  (if emailValid r.email then [] else ["Must provide a valid email"]) ++
  (if r.password.length < 8 then ["Password must be at least 8 characters"] else []) ++
  (if roleStrings.contains r.role then [] else ["Invalid enum value"])

/-- The zod issues of `loginUserSchema.parse` on a login body. -/
def loginIssues (emailValid : String → Bool) (r : LoginRequest) : List String :=
  (if emailValid r.email then [] else ["Must provide a valid email"]) ++
  (if r.password.length < 1 then ["Password is required"] else []) ++
  (if roleStrings.contains r.role then [] else ["Invalid enum value"])

/-- What one `/api/register` call produces: the response, the users table
afterwards, and the session afterwards (the serialised principal id, set by
`req.login`). -/
structure RegisterOutcome where
  resp : Resp
  store : List AuthUser
  session : Option Nat
deriving DecidableEq, Repr

/-- The `/api/register` route of `src/server/auth.ts`: zod-validate the body
(a `ZodError` becomes the 400 validation response); check email uniqueness,
then username uniqueness; hash the password; insert the row
(`DatabaseStorage.createUser`); log the new principal in; answer 201 with
the password stripped. -/
def registerRoute (emailValid : String → Bool) (kdf : String → String → List Nat)
    (salt : String) (now : Nat) (store : List AuthUser) (session : Option Nat)
    (nextId : Nat) (req : RegisterRequest) : RegisterOutcome :=
  match registerIssues emailValid req with
  | _ :: _ => ⟨.validationErr 400 "Validation error" (registerIssues emailValid req),
               store, session⟩
  | [] =>
    match getUserByEmail store req.email with
    | some _ => ⟨.jsonMsg 400 "Email already in use", store, session⟩
    | none =>
      match getUserByUsername store req.username with
      | some _ => ⟨.jsonMsg 400 "Username already exists", store, session⟩
      | none =>
        let hashed := hashPassword kdf req.password salt
        let user : AuthUser := ⟨nextId, req.username, req.email, hashed, req.role, now, now⟩
        let pu := stripPassword user
        ⟨.json 201 (fieldsOfPublic pu), store ++ [user], some user.id⟩

/-- What one `/api/login` call produces: the response, the session
afterwards, the number of credential-store lookups performed, and the number
of `comparePasswords` calls performed. -/
structure LoginOutcome where
  resp : Resp
  session : Option Nat
  lookups : Nat
  verifies : Nat
deriving DecidableEq, Repr

/-- The `/api/login` route of `src/server/auth.ts` composed with the
`LocalStrategy` verifier: zod-validate the body first; then look the email
up; a missing user or a failed comparison both yield the strategy's generic
`done(null, false, {message: "Invalid email or password"})`, which the route
turns into a 401; a `comparePasswords` exception propagates as
`done(error)`/`next(err)`; on verified credentials a claimed-role mismatch
yields 403 and no session change; otherwise `req.login` binds the session to
the principal and the route answers with the password-stripped user. -/
def loginRoute (emailValid : String → Bool) (kdf : String → String → List Nat)
    (store : List AuthUser) (session : Option Nat) (req : LoginRequest) : LoginOutcome :=
  match loginIssues emailValid req with
  | _ :: _ => ⟨.validationErr 400 "Validation error" (loginIssues emailValid req),
               session, 0, 0⟩
  | [] =>
    match getUserByEmail store req.email with
    | none => ⟨.jsonMsg 401 "Invalid email or password", session, 1, 0⟩
    | some user =>
      match comparePasswords kdf req.password user.password with
      | none => ⟨.serverErr, session, 1, 1⟩
      | some false => ⟨.jsonMsg 401 "Invalid email or password", session, 1, 1⟩
      | some true =>
        if user.role ≠ req.role then
          ⟨.jsonMsg 403 "Invalid role for this user", session, 1, 1⟩
        else
          ⟨.json 200 (fieldsOfPublic (stripPassword user)), some user.id, 1, 1⟩

/-- The `/api/logout` route: `req.logout` clears the session, then
`res.sendStatus(200)`. -/
def logoutRoute (_session : Option Nat) : Resp × Option Nat :=
  (.statusOnly 200, none)

/-- Session resolution (`passport.deserializeUser` via `storage.getUser`),
instrumented with the number of credential-store lookups it performs: with
no session there is nothing to deserialise and the store is not touched. -/
def resolveSession (store : List AuthUser) (session : Option Nat) :
    Option PublicUser × Nat :=
  match session with
  | none => (none, 0)
  | some id => (getUser store id, 1)

/-- The `/api/user` identity query: resolve the session; if it yields no
principal (`req.isAuthenticated()` false), answer the normal 401
"Not authenticated" JSON body; otherwise answer the resolved hash-free
principal. The second component counts credential-store lookups. -/
def userRoute (store : List AuthUser) (session : Option Nat) : Resp × Nat :=
  let r := resolveSession store session
  match r.1 with
  | none => (.jsonMsg 401 "Not authenticated", r.2)
  | some u => (.json 200 (fieldsOfPublic u), r.2)

/-- A concrete key-derivation function for witnesses: 64 bytes, each the
password length reduced mod 256. -/
def kdf0 (p : String) (_salt : String) : List Nat :=
  List.replicate 64 (p.length % 256)

/-- A concrete email-syntax predicate for witnesses. -/
def emailValidAt (s : String) : Bool := s.data.contains '@'

example : splitParts "ab.cd" = ("ab", "cd") := by decide
example : splitParts "abcd" = ("abcd", "") := by decide
example : splitParts ".cd" = ("", "cd") := by decide
example : splitParts "ab." = ("ab", "") := by decide
example : splitParts "a.b.c" = ("a", "b") := by decide
example : hexToBytes "ff01".data = [255, 1] := by decide
example : hexToBytes "abc".data = [171] := by decide
example : bytesToHexChars [255, 1] = "ff01".data := by decide

lemma hexChar_ne_dot (n : Nat) : hexChar n ≠ '.' := by
  unfold hexChar
  rcases Nat.lt_or_ge n 16 with h | h
  · interval_cases n <;> decide
  · rw [List.getD_eq_default]
    · decide
    · simpa [hexDigits] using h

lemma dot_not_mem_bytesToHexChars (d : List Nat) : '.' ∉ bytesToHexChars d := by
  induction d with
  | nil => simp [bytesToHexChars]
  | cons b r ih =>
    simp only [bytesToHexChars, List.mem_cons, not_or]
    exact ⟨fun h => hexChar_ne_dot _ h.symm, fun h => hexChar_ne_dot _ h.symm, ih⟩

lemma hexDigit?_hexChar (d : Nat) (h : d < 16) : hexDigit? (hexChar d) = some d := by
  interval_cases d <;> rfl

lemma hexToBytes_bytesToHexChars (d : List Nat) (hd : ∀ b ∈ d, b < 256) :
    hexToBytes (bytesToHexChars d) = d := by
  induction d with
  | nil => rfl
  | cons b r ih =>
    have hb : b < 256 := hd b (List.mem_cons_self b r)
    have h1 : b / 16 < 16 := Nat.div_lt_of_lt_mul (by omega)
    have h2 : b % 16 < 16 := Nat.mod_lt _ (by omega)
    simp only [bytesToHexChars, hexToBytes, hexDigit?_hexChar _ h1, hexDigit?_hexChar _ h2]
    rw [ih (fun x hx => hd x (List.mem_cons_of_mem _ hx))]
    congr 1
    omega

lemma bytesToHexChars_ne_nil (d : List Nat) (hd : d ≠ []) : bytesToHexChars d ≠ [] := by
  cases d with
  | nil => exact absurd rfl hd
  | cons b r => simp [bytesToHexChars]

lemma splitOnDot_ne_nil (l : List Char) : splitOnDot l ≠ [] := by
  cases l with
  | nil => simp [splitOnDot]
  | cons c rest =>
    simp only [splitOnDot]
    split <;> simp

lemma splitOnDot_no_dot (b : List Char) (hb : '.' ∉ b) : splitOnDot b = [b] := by
  induction b with
  | nil => rfl
  | cons c rest ih =>
    have hc : c ≠ '.' := fun h => hb (h ▸ List.mem_cons_self c rest)
    have hr : '.' ∉ rest := fun h => hb (List.mem_cons_of_mem _ h)
    simp [splitOnDot, hc, ih hr]

lemma splitOnDot_append_dot (a b : List Char) (ha : '.' ∉ a) :
    splitOnDot (a ++ '.' :: b) = a :: splitOnDot b := by
  induction a with
  | nil => simp [splitOnDot]
  | cons c a' ih =>
    have hc : c ≠ '.' := fun h => ha (h ▸ List.mem_cons_self c a')
    have ha' : '.' ∉ a' := fun h => ha (List.mem_cons_of_mem _ h)
    simp [splitOnDot, hc, ih ha']

lemma data_hashPassword (kdf : String → String → List Nat) (p salt : String) :
    (hashPassword kdf p salt).data = bytesToHexChars (kdf p salt) ++ '.' :: salt.data := by
  simp [hashPassword, String.data_append]

lemma splitParts_hashPassword (kdf : String → String → List Nat) (p salt : String)
    (hs : '.' ∉ salt.data) :
    splitParts (hashPassword kdf p salt) =
      (String.mk (bytesToHexChars (kdf p salt)), salt) := by
  have h := splitOnDot_append_dot (bytesToHexChars (kdf p salt)) salt.data
    (dot_not_mem_bytesToHexChars _)
  have h2 := splitOnDot_no_dot salt.data hs
  simp only [splitParts, data_hashPassword, h, h2]
  cases salt
  rfl

lemma mk_ne_empty (l : List Char) (hl : l ≠ []) : String.mk l ≠ "" := by
  intro h
  exact hl (congrArg String.data h)

lemma comparePasswords_hashPassword (kdf : String → String → List Nat)
    (hlen : ∀ p s, (kdf p s).length = 64)
    (hbyte : ∀ p s, ∀ b ∈ kdf p s, b < 256)
    (salt : String) (hs : '.' ∉ salt.data) (hne : salt ≠ "")
    (supplied stored : String) :
    comparePasswords kdf supplied (hashPassword kdf stored salt) =
      some (decide (kdf stored salt = kdf supplied salt)) := by
  have hnil : kdf stored salt ≠ [] := by
    intro h
    have := hlen stored salt
    rw [h] at this
    simp at this
  have hsplit := splitParts_hashPassword kdf stored salt hs
  unfold comparePasswords
  rw [hsplit]
  rw [if_neg (by
    push_neg
    exact ⟨mk_ne_empty _ (bytesToHexChars_ne_nil _ hnil), hne⟩)]
  have hdata : (String.mk (bytesToHexChars (kdf stored salt))).data =
      bytesToHexChars (kdf stored salt) := rfl
  rw [hdata, hexToBytes_bytesToHexChars _ (hbyte stored salt)]
  unfold timingSafeEqual
  rw [if_pos (by rw [hlen, hlen])]

/-- C1: for every plaintext `p`, verifying `p` against `hashPassword p`
succeeds, and under the collision-freedom hypothesis on the KDF, verifying a
different plaintext against that encoding fails (returns `false`, it does
not throw). The fresh random salt is an explicit argument: any
delimiter-free nonempty salt string. -/
theorem c1_verify_roundtrip (kdf : String → String → List Nat)
    (hlen : ∀ p s, (kdf p s).length = 64)
    (hbyte : ∀ p s, ∀ b ∈ kdf p s, b < 256)
    (salt : String) (hs : '.' ∉ salt.data) (hne : salt ≠ "") :
    (∀ p, comparePasswords kdf p (hashPassword kdf p salt) = some true) ∧
    (∀ p1 p2, kdf p1 salt ≠ kdf p2 salt →
      comparePasswords kdf p1 (hashPassword kdf p2 salt) = some false) := by
  constructor
  · intro p
    rw [comparePasswords_hashPassword kdf hlen hbyte salt hs hne p p]
    simp
  · intro p1 p2 hcoll
    rw [comparePasswords_hashPassword kdf hlen hbyte salt hs hne p1 p2]
    simp only [Option.some.injEq, decide_eq_false_iff_not]
    exact fun h => hcoll (h.symm)

/-- Witness for C1 at a concrete KDF, salt and passwords. -/
theorem c1_verify_roundtrip_witness :
    comparePasswords kdf0 "alpha" (hashPassword kdf0 "alpha" "00") = some true ∧
    comparePasswords kdf0 "alpha" (hashPassword kdf0 "hi" "00") = some false := by
  have h := c1_verify_roundtrip kdf0
    (fun p s => by simp [kdf0])
    (fun p s b hb => by
      simp only [kdf0, List.mem_replicate] at hb
      omega)
    "00" (by decide) (by decide)
  exact ⟨h.1 "alpha", h.2 "alpha" "hi" (by decide)⟩

/-- C2: when the stored encoding splits with a missing digest part or a
missing salt part, `comparePasswords` returns `false` (a value, not a thrown
exception), for every supplied password and every KDF. -/
theorem c2_fail_closed (kdf : String → String → List Nat) (supplied stored : String)
    (h : (splitParts stored).1 = "" ∨ (splitParts stored).2 = "") :
    comparePasswords kdf supplied stored = some false := by
  unfold comparePasswords
  rw [if_pos h]

/-- Witness for C2 on a delimiter-free stored string. -/
theorem c2_fail_closed_witness :
    (splitParts "deadbeef").2 = "" ∧
    comparePasswords kdf0 "pw" "deadbeef" = some false :=
  ⟨by decide, c2_fail_closed kdf0 "pw" "deadbeef" (Or.inr (by decide))⟩

/-- C7: hashing the same plaintext under two distinct salts yields two
distinct encoded outputs, and the salt is embedded after the delimiter
(recoverable as the second split component). -/
theorem c7_distinct_salts (kdf : String → String → List Nat) (p s1 s2 : String)
    (h1 : '.' ∉ s1.data) (h2 : '.' ∉ s2.data) (hne : s1 ≠ s2) :
    hashPassword kdf p s1 ≠ hashPassword kdf p s2 ∧
    (splitParts (hashPassword kdf p s1)).2 = s1 := by
  refine ⟨fun h => hne ?_, by rw [splitParts_hashPassword kdf p s1 h1]⟩
  have heq : (splitParts (hashPassword kdf p s1)).2 =
      (splitParts (hashPassword kdf p s2)).2 := by rw [h]
  rwa [splitParts_hashPassword kdf p s1 h1, splitParts_hashPassword kdf p s2 h2] at heq

/-- Witness for C7 at concrete distinct salts. -/
theorem c7_distinct_salts_witness :
    hashPassword kdf0 "pw" "00" ≠ hashPassword kdf0 "pw" "01" ∧
    (splitParts (hashPassword kdf0 "pw" "00")).2 = "00" :=
  c7_distinct_salts kdf0 "pw" "00" "01" (by decide) (by decide) (by decide)

/-- C9: when the stored encoding does split into two nonempty parts but its
digest part hex-decodes to a byte length other than the KDF's 64-byte
output, `comparePasswords` throws (`none`) instead of returning `false`:
`timingSafeEqual` requires equal-length buffers. -/
theorem c9_length_mismatch_throws (kdf : String → String → List Nat)
    (hlen : ∀ p s, (kdf p s).length = 64) (supplied stored : String)
    (h1 : (splitParts stored).1 ≠ "") (h2 : (splitParts stored).2 ≠ "")
    (hx : (hexToBytes (splitParts stored).1.data).length ≠ 64) :
    comparePasswords kdf supplied stored = none := by
  unfold comparePasswords
  rw [if_neg (by push_neg; exact ⟨h1, h2⟩)]
  unfold timingSafeEqual
  rw [if_neg (by rw [hlen]; exact hx)]

/-- Witness for C9 on a short (one-byte) digest part. -/
theorem c9_length_mismatch_throws_witness :
    (splitParts "ab.cd").1 ≠ "" ∧
    comparePasswords kdf0 "pw" "ab.cd" = none :=
  ⟨by decide,
   c9_length_mismatch_throws kdf0 (fun p s => by simp [kdf0]) "pw" "ab.cd"
     (by decide) (by decide) (by decide)⟩

/-- A stored encoding whose digest is 64 zero bytes, salt `"00"`; under
`kdf0` it is the hash of the empty password. -/
def pw0 : String := String.mk (bytesToHexChars (List.replicate 64 0)) ++ "." ++ "00"

/-- A stored encoding whose digest is 64 bytes of value 3, salt `"00"`;
under `kdf0` it is the hash of any 3-character password. -/
def pw3 : String := String.mk (bytesToHexChars (List.replicate 64 3)) ++ "." ++ "00"

/-- A one-user credential store for the login witnesses. -/
def store1 : List AuthUser := [⟨1, "bob", "a@x.com", pw0, "sales", 0, 0⟩]

/-- A one-user store whose user's password verifies against `"abc"`. -/
def store2 : List AuthUser := [⟨2, "carol", "c@x.com", pw3, "sales", 0, 0⟩]

lemma password_not_in_fields (u : PublicUser) :
    "password" ∉ (fieldsOfPublic u).map Prod.fst := by
  simp [fieldsOfPublic]

/-- C3: a login naming an unknown email and a login naming a known email
with a failing password, both with the same claimed role and both passing
body validation, produce identical observable failure responses (the same
generic 401 message), and neither establishes a session. -/
theorem c3_login_failures_indistinguishable (emailValid : String → Bool)
    (kdf : String → String → List Nat) (store : List AuthUser)
    (session : Option Nat) (req1 req2 : LoginRequest) (u : AuthUser)
    (_hrole : req1.role = req2.role)
    (hv1 : loginIssues emailValid req1 = [])
    (hv2 : loginIssues emailValid req2 = [])
    (h1 : getUserByEmail store req1.email = none)
    (h2 : getUserByEmail store req2.email = some u)
    (hcmp : comparePasswords kdf req2.password u.password = some false) :
    (loginRoute emailValid kdf store session req1).resp =
      (loginRoute emailValid kdf store session req2).resp ∧
    (loginRoute emailValid kdf store session req1).resp =
      .jsonMsg 401 "Invalid email or password" ∧
    (loginRoute emailValid kdf store session req1).session = session ∧
    (loginRoute emailValid kdf store session req2).session = session := by
  simp [loginRoute, hv1, hv2, h1, h2, hcmp]

/-- Witness for C3: unknown email vs. wrong password against a concrete
store, identical responses. -/
theorem c3_login_failures_indistinguishable_witness :
    (loginRoute emailValidAt kdf0 store1 none ⟨"b@x.com", "zzz", "sales"⟩).resp =
      (loginRoute emailValidAt kdf0 store1 none ⟨"a@x.com", "wrong", "sales"⟩).resp ∧
    (loginRoute emailValidAt kdf0 store1 none ⟨"b@x.com", "zzz", "sales"⟩).resp =
      .jsonMsg 401 "Invalid email or password" := by
  have h := c3_login_failures_indistinguishable emailValidAt kdf0 store1 none
    ⟨"b@x.com", "zzz", "sales"⟩ ⟨"a@x.com", "wrong", "sales"⟩
    ⟨1, "bob", "a@x.com", pw0, "sales", 0, 0⟩
    rfl (by decide) (by decide) (by decide) (by decide) (by decide)
  exact ⟨h.1, h.2.1⟩

/-- C4: verified credentials with a claimed role different from the stored
role fail with the distinct 403 role-mismatch response — not the generic
401 — and the session is unchanged. -/
theorem c4_role_mismatch (emailValid : String → Bool)
    (kdf : String → String → List Nat) (store : List AuthUser)
    (session : Option Nat) (req : LoginRequest) (u : AuthUser)
    (hv : loginIssues emailValid req = [])
    (hu : getUserByEmail store req.email = some u)
    (hcmp : comparePasswords kdf req.password u.password = some true)
    (hrole : u.role ≠ req.role) :
    loginRoute emailValid kdf store session req =
      ⟨.jsonMsg 403 "Invalid role for this user", session, 1, 1⟩ ∧
    (Resp.jsonMsg 403 "Invalid role for this user" ≠
      Resp.jsonMsg 401 "Invalid email or password") := by
  refine ⟨?_, by decide⟩
  simp [loginRoute, hv, hu, hcmp, hrole]

/-- Witness for C4: correct password, claimed role `admin` against stored
role `sales`. -/
theorem c4_role_mismatch_witness :
    loginRoute emailValidAt kdf0 store2 none ⟨"c@x.com", "abc", "admin"⟩ =
      ⟨.jsonMsg 403 "Invalid role for this user", none, 1, 1⟩ :=
  (c4_role_mismatch emailValidAt kdf0 store2 none ⟨"c@x.com", "abc", "admin"⟩
    ⟨2, "carol", "c@x.com", pw3, "sales", 0, 0⟩
    (by decide) (by decide) (by decide) (by decide)).1

/-- C5: registration checks run in order — shape validation first, reporting
every violated field (membership of each field's message in the issue list
is equivalent to that field being violated); then email uniqueness, then
username uniqueness, each conflict yielding its named 400 response with the
store unchanged (no row created). -/
theorem c5_register_check_order (emailValid : String → Bool)
    (kdf : String → String → List Nat) (salt : String) (now : Nat)
    (store : List AuthUser) (session : Option Nat) (nextId : Nat)
    (req : RegisterRequest) :
    (registerIssues emailValid req ≠ [] →
      registerRoute emailValid kdf salt now store session nextId req =
        ⟨.validationErr 400 "Validation error" (registerIssues emailValid req),
         store, session⟩) ∧
    ("Username must be at least 3 characters" ∈ registerIssues emailValid req ↔
      req.username.length < 3) ∧
    ("Must provide a valid email" ∈ registerIssues emailValid req ↔
      emailValid req.email = false) ∧
    ("Password must be at least 8 characters" ∈ registerIssues emailValid req ↔
      req.password.length < 8) ∧
    ("Invalid enum value" ∈ registerIssues emailValid req ↔
      roleStrings.contains req.role = false) ∧
    (registerIssues emailValid req = [] → (getUserByEmail store req.email).isSome →
      registerRoute emailValid kdf salt now store session nextId req =
        ⟨.jsonMsg 400 "Email already in use", store, session⟩) ∧
    (registerIssues emailValid req = [] → getUserByEmail store req.email = none →
      (getUserByUsername store req.username).isSome →
      registerRoute emailValid kdf salt now store session nextId req =
        ⟨.jsonMsg 400 "Username already exists", store, session⟩) := by
  refine ⟨?_, ?_, ?_, ?_, ?_, ?_, ?_⟩
  · intro hne
    cases hl : registerIssues emailValid req with
    | nil => exact absurd hl hne
    | cons a l => simp [registerRoute, hl]
  · simp [registerIssues]
  · simp [registerIssues]
  · simp [registerIssues]
  · simp [registerIssues]
  · intro hz hsome
    obtain ⟨u, hu⟩ := Option.isSome_iff_exists.mp hsome
    simp [registerRoute, hz, hu]
  · intro hz hnone hsome
    obtain ⟨u, hu⟩ := Option.isSome_iff_exists.mp hsome
    simp [registerRoute, hz, hnone, hu]

/-- Witness for C5: a body violating both the username and password rules is
rejected with both messages in the issue list and no row created. -/
theorem c5_register_check_order_witness :
    registerRoute emailValidAt kdf0 "00" 0 [] none 1 ⟨"ab", "a@x.com", "short", "sales"⟩ =
      ⟨.validationErr 400 "Validation error"
        (registerIssues emailValidAt ⟨"ab", "a@x.com", "short", "sales"⟩), [], none⟩ ∧
    "Username must be at least 3 characters" ∈
      registerIssues emailValidAt ⟨"ab", "a@x.com", "short", "sales"⟩ ∧
    "Password must be at least 8 characters" ∈
      registerIssues emailValidAt ⟨"ab", "a@x.com", "short", "sales"⟩ := by
  have h := c5_register_check_order emailValidAt kdf0 "00" 0 [] none 1
    ⟨"ab", "a@x.com", "short", "sales"⟩
  exact ⟨h.1 (by decide), h.2.1.mpr (by decide), h.2.2.2.1.mpr (by decide)⟩

/-- C6: no response of registration, login, or the identity query carries a
`password` key, and the id-based lookup `getUser` yields the hash-free
shape, whose serialisation carries no `password` key either. -/
theorem c6_no_password_in_responses (emailValid : String → Bool)
    (kdf : String → String → List Nat) (salt : String) (now : Nat)
    (store : List AuthUser) (session : Option Nat) (nextId : Nat)
    (req : RegisterRequest) (lreq : LoginRequest) (id : Nat) :
    "password" ∉ respKeys
      (registerRoute emailValid kdf salt now store session nextId req).resp ∧
    "password" ∉ respKeys (loginRoute emailValid kdf store session lreq).resp ∧
    "password" ∉ respKeys (userRoute store session).1 ∧
    "password" ∉ ((getUser store id).elim [] fieldsOfPublic).map Prod.fst := by
  refine ⟨?_, ?_, ?_, ?_⟩
  · unfold registerRoute
    split
    · simp [respKeys]
    · split
      · simp [respKeys]
      · split
        · simp [respKeys]
        · simpa [respKeys] using password_not_in_fields _
  · unfold loginRoute
    split
    · simp [respKeys]
    · split
      · simp [respKeys]
      · split
        · simp [respKeys]
        · simp [respKeys]
        · split
          · simp [respKeys]
          · simpa [respKeys] using password_not_in_fields _
  · cases session with
    | none => simp [userRoute, resolveSession, respKeys]
    | some i =>
      cases h : getUser store i with
      | none => simp [userRoute, resolveSession, h, respKeys]
      | some u =>
        simpa [userRoute, resolveSession, h, respKeys] using password_not_in_fields u
  · cases h : getUser store id with
    | none => simp
    | some u => simpa using password_not_in_fields u

/-- C8: the identity query on an absent session answers the normal 401
"Not authenticated" body with zero credential-store lookups, and logout
always clears the session, so the identity query right after a logout does
the same. -/
theorem c8_identity_without_session (store : List AuthUser) :
    userRoute store none = (.jsonMsg 401 "Not authenticated", 0) ∧
    (∀ s : Option Nat, (logoutRoute s).2 = none ∧
      userRoute store (logoutRoute s).2 = (.jsonMsg 401 "Not authenticated", 0)) :=
  ⟨rfl, fun _ => ⟨rfl, rfl⟩⟩

/-- C10: a login body with an invalid email, an empty password, or a role
outside the closed set is rejected by validation — a 400 validation
response, unchanged session, zero store lookups and zero password
verifications — before any credential is touched. -/
theorem c10_login_validation_first (emailValid : String → Bool)
    (kdf : String → String → List Nat) (store : List AuthUser)
    (session : Option Nat) (req : LoginRequest)
    (h : emailValid req.email = false ∨ req.password = "" ∨
      roleStrings.contains req.role = false) :
    loginRoute emailValid kdf store session req =
      ⟨.validationErr 400 "Validation error" (loginIssues emailValid req),
       session, 0, 0⟩ := by
  have hne : loginIssues emailValid req ≠ [] := by
    rcases h with h | h | h
    · simp [loginIssues, h]
    · simp [loginIssues, h]
    · have h2 : req.role ∉ roleStrings := by simpa using h
      simp [loginIssues, h2]
  cases hl : loginIssues emailValid req with
  | nil => exact absurd hl hne
  | cons a l => simp [loginRoute, hl]

/-- Witness for C10: a body violating all three rules at once. -/
theorem c10_login_validation_first_witness :
    loginRoute emailValidAt kdf0 store1 none ⟨"nope", "", "superuser"⟩ =
      ⟨.validationErr 400 "Validation error"
        (loginIssues emailValidAt ⟨"nope", "", "superuser"⟩), none, 0, 0⟩ :=
  c10_login_validation_first emailValidAt kdf0 store1 none
    ⟨"nope", "", "superuser"⟩ (Or.inl (by decide))
